import Mathlib

/-
  Verification of the geocode resolution pipeline of the
  insightwise-coding-challenge repository.

  The definitions below are shallow embeddings of the Python source:
  - `calculate_direction` embeds `GeoService.calculate_direction`
    (src/app/services/geo_service.py and src/app/features/geo/service.py;
    the fixed New York reference point is passed as the last two arguments).
  - `retryGo` / `async_retry` embed the retry loop of `async_retry`
    (src/app/utils/retry.py).  The wrapped operation is modelled as a
    function from the attempt index to its outcome (the environment decides
    what each attempt sees), together with the events it emits; the model
    records the final outcome, the emitted events, the number of times the
    operation was invoked, and the backoff waits that were slept.
  Machine floats of the source are modelled as rationals: every comparison
  and arithmetic operation the claims touch is exact on the values involved.
-/

/-- Embedding of `GeoService.calculate_direction`: quadrant label of a
coordinate pair relative to a reference point, using `>=` on both axes. -/
def calculate_direction (latitude longitude ny_lat ny_lon : ℚ) : String :=
  let is_north := decide (latitude ≥ ny_lat)
  let is_east := decide (longitude ≥ ny_lon)
  if is_north && is_east then "NE"
  else if is_north && !is_east then "NW"
  else if !is_north && is_east then "SE"
  else "SW"

/-- New York latitude constant of src/app/services/geo_service.py. -/
def NY_LATITUDE : ℚ := 40.7506

/-- New York longitude constant of src/app/services/geo_service.py. -/
def NY_LONGITUDE : ℚ := -73.9971

/-- Result of one run of the retry wrapper: final outcome, events emitted by
the attempts, number of invocations of the wrapped operation, and the
sequence of backoff waits. -/
structure RetryResult (E A Ev : Type) where
  result : Except E A
  events : List Ev
  invocations : Nat
  waits : List ℚ
deriving Repr

/-- Loop body of `async_retry` (src/app/utils/retry.py).  `attempt` is the
0-based attempt index, the last argument is the number of attempts still
allowed after this one (`retries - attempt` in the source).  An exception is
retried only when it matches the configured exception list (`retryable`);
on the last attempt, or on a non-matching exception, it propagates.  The
wait before a retry is `current_delay`, scaled by `0.5 + random()` when
jitter is on, and `current_delay` is multiplied by `backoff_factor` after
each wait. -/
def retryGo {E A Ev : Type} (retryable : E → Bool) (op : Nat → Except E A × List Ev)
    (jitter : Bool) (rand : Nat → ℚ) (attempt : Nat) (current_delay backoff_factor : ℚ) :
    Nat → RetryResult E A Ev
  | 0 =>
    match op attempt with
    | (.ok a, evs) => ⟨.ok a, evs, 1, []⟩
    | (.error e, evs) => ⟨.error e, evs, 1, []⟩
  | remaining + 1 =>
    match op attempt with
    | (.ok a, evs) => ⟨.ok a, evs, 1, []⟩
    | (.error e, evs) =>
      if retryable e then
        let wait_time := if jitter then current_delay * (1/2 + rand attempt) else current_delay
        let rest := retryGo retryable op jitter rand (attempt + 1)
          (current_delay * backoff_factor) backoff_factor remaining
        ⟨rest.result, evs ++ rest.events, rest.invocations + 1, wait_time :: rest.waits⟩
      else ⟨.error e, evs, 1, []⟩

/-- Embedding of the `async_retry` decorator (src/app/utils/retry.py): run the
operation up to `retries + 1` times (`for attempt in range(retries + 1)`),
starting at attempt 0 with the configured initial delay. -/
def async_retry {E A Ev : Type} (retries : Nat) (delay backoff_factor : ℚ)
    (jitter : Bool) (retryable : E → Bool) (rand : Nat → ℚ)
    (op : Nat → Except E A × List Ev) : RetryResult E A Ev :=
  retryGo retryable op jitter rand 0 delay backoff_factor retries

/-- When every attempt fails with a retryable error, the loop starting at
`attempt` with `remaining` allowed retries invokes the operation
`remaining + 1` times and propagates the error of the final attempt. -/
theorem retryGo_all_retryable_errors {E A Ev : Type} (retryable : E → Bool)
    (errF : Nat → E) (evF : Nat → List Ev) (hr : ∀ e, retryable e = true)
    (jitter : Bool) (rand : Nat → ℚ) :
    ∀ (remaining attempt : Nat) (cd bf : ℚ),
      (retryGo (A := A) retryable (fun i => (Except.error (errF i), evF i))
          jitter rand attempt cd bf remaining).invocations = remaining + 1 ∧
      (retryGo (A := A) retryable (fun i => (Except.error (errF i), evF i))
          jitter rand attempt cd bf remaining).result
        = Except.error (errF (attempt + remaining)) := by
  intro remaining
  induction remaining with
  | zero =>
    intro attempt cd bf
    simp [retryGo]
  | succ n ih =>
    intro attempt cd bf
    obtain ⟨h1, h2⟩ := ih (attempt + 1) (cd * bf) bf
    refine ⟨by simp [retryGo, hr, h1], ?_⟩
    have hidx : attempt + (n + 1) = (attempt + 1) + n := by omega
    rw [hidx]
    simp only [retryGo, hr, if_true]
    exact h2

/-- C1 counterexample: with the configured `retries = max_attempts = 3` and an
operation that raises a retryable error on every invocation, `async_retry`
invokes the operation 4 times, not `max_attempts = 3` times. -/
theorem c1_counterexample :
    (async_retry 3 1 2 true (fun _ : Nat => true) (fun _ => 0)
        (fun i => ((Except.error i : Except Nat Unit), ([] : List Unit)))).invocations = 4 ∧
    ¬ (async_retry 3 1 2 true (fun _ : Nat => true) (fun _ => 0)
        (fun i => ((Except.error i : Except Nat Unit), ([] : List Unit)))).invocations = 3 := by
  constructor
  · rfl
  · decide

/-- C1 (amended): for an operation raising a retryable error on every
invocation, `async_retry` configured with `retries = max_attempts` invokes
the operation exactly `max_attempts + 1` times (the initial call plus
`retries` retries), and the error that propagates is the one raised by the
last attempt (attempt index `max_attempts`), not an intermediate one. -/
theorem c1_bounded_attempts_last_error {E A Ev : Type} (max_attempts : Nat)
    (delay backoff_factor : ℚ) (jitter : Bool) (rand : Nat → ℚ)
    (retryable : E → Bool) (errF : Nat → E) (evF : Nat → List Ev)
    (hr : ∀ e, retryable e = true) :
    (async_retry (A := A) max_attempts delay backoff_factor jitter retryable rand
        (fun i => (Except.error (errF i), evF i))).invocations = max_attempts + 1 ∧
    (async_retry (A := A) max_attempts delay backoff_factor jitter retryable rand
        (fun i => (Except.error (errF i), evF i))).result
      = Except.error (errF max_attempts) := by
  have h := retryGo_all_retryable_errors (A := A) retryable errF evF hr jitter rand
    max_attempts 0 delay backoff_factor
  have h2 := h.2
  rw [Nat.zero_add] at h2
  exact ⟨h.1, h2⟩

/-- C1 witness: at `max_attempts = 2` with error value equal to the attempt
index, the operation runs 3 times and the propagated error is attempt 2's. -/
theorem c1_witness :
    (async_retry 2 1 2 true (fun _ : Nat => true) (fun _ => 0)
        (fun i => ((Except.error i : Except Nat Unit), ([] : List Unit)))).invocations = 2 + 1 ∧
    (async_retry 2 1 2 true (fun _ : Nat => true) (fun _ => 0)
        (fun i => ((Except.error i : Except Nat Unit), ([] : List Unit)))).result
      = Except.error 2 :=
  c1_bounded_attempts_last_error 2 1 2 true (fun _ => 0) (fun _ => true)
    (fun i => i) (fun _ => []) (fun _ => rfl)

/-- C8: when the first invocation raises a terminal (non-retryable) error,
`async_retry` invokes the operation exactly once, performs no backoff wait,
and propagates that error immediately. -/
theorem c8_terminal_short_circuit {E A Ev : Type} (retries : Nat)
    (delay backoff_factor : ℚ) (jitter : Bool) (retryable : E → Bool)
    (rand : Nat → ℚ) (op : Nat → Except E A × List Ev) (e : E) (evs : List Ev)
    (hop : op 0 = (Except.error e, evs)) (hterm : retryable e = false) :
    async_retry retries delay backoff_factor jitter retryable rand op
      = ⟨Except.error e, evs, 1, []⟩ := by
  unfold async_retry
  cases retries with
  | zero => simp [retryGo, hop]
  | succ n => simp [retryGo, hop, hterm]

/-- C8 witness: a non-retryable error value 7 raised on the first attempt is
propagated after exactly one invocation and no wait. -/
theorem c8_witness :
    async_retry 3 1 2 true (fun _ : Nat => false) (fun _ => 0)
        (fun _ => ((Except.error 7 : Except Nat Unit), ([] : List Unit)))
      = ⟨Except.error 7, [], 1, []⟩ :=
  c8_terminal_short_circuit 3 1 2 true (fun _ => false) (fun _ => 0)
    (fun _ => ((Except.error 7 : Except Nat Unit), [])) 7 [] rfl rfl

/-- C2: `calculate_direction` is total with exactly the four labels NE, NW,
SE, SW, computed from `lat >= refLat` and `lon >= refLon` (north+east NE,
north+west NW, south+east SE, south+west SW), and on exact equality with the
reference point both comparisons resolve true and the result is NE. -/
theorem c2_direction_quadrants (lat lon ref_lat ref_lon : ℚ) :
    (calculate_direction lat lon ref_lat ref_lon = "NE" ∨
     calculate_direction lat lon ref_lat ref_lon = "NW" ∨
     calculate_direction lat lon ref_lat ref_lon = "SE" ∨
     calculate_direction lat lon ref_lat ref_lon = "SW") ∧
    (lat ≥ ref_lat → lon ≥ ref_lon → calculate_direction lat lon ref_lat ref_lon = "NE") ∧
    (lat ≥ ref_lat → lon < ref_lon → calculate_direction lat lon ref_lat ref_lon = "NW") ∧
    (lat < ref_lat → lon ≥ ref_lon → calculate_direction lat lon ref_lat ref_lon = "SE") ∧
    (lat < ref_lat → lon < ref_lon → calculate_direction lat lon ref_lat ref_lon = "SW") ∧
    calculate_direction ref_lat ref_lon ref_lat ref_lon = "NE" := by
  unfold calculate_direction
  rcases le_or_lt ref_lat lat with hn | hn <;> rcases le_or_lt ref_lon lon with he | he
  · simp [hn, he, not_lt.mpr hn, not_lt.mpr he, le_refl]
  · simp [hn, he, not_le.mpr he, not_lt.mpr hn, le_refl]
  · simp [hn, he, not_le.mpr hn, not_lt.mpr he, le_refl]
  · simp [hn, he, not_le.mpr hn, not_le.mpr he, le_refl]

/-- C2 witness: a point north and east of the reference point is NE, and the
reference point itself is NE. -/
theorem c2_witness :
    calculate_direction 41 (-73) NY_LATITUDE NY_LONGITUDE = "NE" ∧
    calculate_direction NY_LATITUDE NY_LONGITUDE NY_LATITUDE NY_LONGITUDE = "NE" :=
  ⟨(c2_direction_quadrants 41 (-73) NY_LATITUDE NY_LONGITUDE).2.1
      (by norm_num [NY_LATITUDE]) (by norm_num [NY_LONGITUDE]),
   (c2_direction_quadrants NY_LATITUDE NY_LONGITUDE NY_LATITUDE NY_LONGITUDE).2.2.2.2.2⟩

/-
  Embedding of the feature-variant geo service
  (src/app/features/geo/service.py): cache-aside resolution backed by the
  `GeoCache` document collection (src/app/features/geo/models.py).  The
  upstream HTTP exchange of one call is modelled by an `UpstreamResponse`
  value chosen by the environment.
-/

/-- Resolved coordinates as returned by `get_location_data`. -/
structure Coordinates where
  latitude : ℚ
  longitude : ℚ
deriving DecidableEq, Repr

/-- One record of the upstream body's `places` list; a coordinate is `none`
when the corresponding JSON key is absent. -/
structure Place where
  latitude : Option ℚ
  longitude : Option ℚ
deriving DecidableEq, Repr

/-- Outcome of one upstream HTTP exchange: a transport-level failure, a
timeout, or a response with a status code and a parsed `places` list (an
absent `places` key parses to the empty list, as `data.get("places", [])`
does). -/
inductive UpstreamResponse where
  | transportFail (msg : String)
  | timeoutFail (msg : String)
  | response (status : Nat) (places : List Place)
deriving DecidableEq, Repr

/-- Failure kinds raised by `GeoService._fetch_from_api`
(src/app/features/geo/service.py); all three are `ExternalServiceError` in
the source, distinguished here by their message and details. -/
inductive ExternalServiceError where
  | statusError (status : Nat)
  | noData
  | connectionError (msg : String)
deriving DecidableEq, Repr

/-- Embedding of `GeoService._fetch_from_api`
(src/app/features/geo/service.py): non-200 status raises, an empty `places`
list raises the no-data error, otherwise the first record's coordinates are
parsed with `.get(key, 0)` defaults; `httpx.RequestError` (transport and
timeout failures) raises the connection error. -/
def fetch_from_api : UpstreamResponse → Except ExternalServiceError Coordinates
  | .transportFail msg => .error (.connectionError msg)
  | .timeoutFail msg => .error (.connectionError msg)
  | .response status places =>
    if status ≠ 200 then .error (.statusError status)
    else
      match places.head? with
      | none => .error .noData
      | some place => .ok ⟨place.latitude.getD 0, place.longitude.getD 0⟩

/-- One `GeoCache` document (src/app/features/geo/models.py); `postcode` is
unique in the collection. -/
structure GeoCacheEntry where
  postcode : String
  latitude : ℚ
  longitude : ℚ
deriving DecidableEq, Repr

/-- State touched by `get_location_data`: the `geo_cache` collection and the
number of upstream fetches issued so far. -/
structure GeoState where
  cache : List GeoCacheEntry
  fetchCount : Nat
deriving DecidableEq, Repr

/-- Embedding of `GeoCache.objects(postcode=postcode).first()`. -/
def cacheLookup (cache : List GeoCacheEntry) (postcode : String) : Option GeoCacheEntry :=
  cache.find? (fun e => e.postcode == postcode)

/-- Embedding of `GeoService.get_location_data`
(src/app/features/geo/service.py): on a cache hit return the cached
coordinates unchanged (no upstream fetch, and the source performs no retry
and emits no event on this path); on a miss fetch from the API, save the
result to the cache on success, and re-raise the fetch error on failure. -/
def get_location_data (resp : UpstreamResponse) (postcode : String) (s : GeoState) :
    Except ExternalServiceError Coordinates × GeoState :=
  match cacheLookup s.cache postcode with
  | some entry => (.ok ⟨entry.latitude, entry.longitude⟩, s)
  | none =>
    match fetch_from_api resp with
    | .ok coords =>
      (.ok coords,
        { cache := ⟨postcode, coords.latitude, coords.longitude⟩ :: s.cache,
          fetchCount := s.fetchCount + 1 })
    | .error e => (.error e, { s with fetchCount := s.fetchCount + 1 })

/-- C3: once `get_location_data` has succeeded for a postcode, every
subsequent call for that postcode returns the identical coordinates and
leaves the state untouched: the cached entry is returned, `fetchCount` does
not grow (no additional upstream fetch), and the cache-hit path runs none of
the fetch machinery (the source performs no retry and emits no event
anywhere in this function, and on a hit it returns before reaching the
fetch). -/
theorem c3_cache_round_trip (resp : UpstreamResponse) (postcode : String) (s : GeoState)
    (coords : Coordinates) (s2 : GeoState)
    (h : get_location_data resp postcode s = (.ok coords, s2)) :
    ∀ resp2, get_location_data resp2 postcode s2 = (.ok coords, s2) := by
  intro resp2
  unfold get_location_data at h ⊢
  cases hc : cacheLookup s.cache postcode with
  | some entry =>
    simp only [hc, Prod.mk.injEq, Except.ok.injEq] at h
    obtain ⟨h1, h2⟩ := h
    subst h2
    simp [hc, h1]
  | none =>
    simp only [hc] at h
    cases hf : fetch_from_api resp with
    | ok c =>
      simp only [hf, Prod.mk.injEq, Except.ok.injEq] at h
      obtain ⟨h1, h2⟩ := h
      subst h1
      subst h2
      simp [cacheLookup]
    | error e =>
      simp [hf] at h

/-- C3 witness: after a successful resolution of "10001" from an empty
cache, a second call succeeds identically even when the upstream is down. -/
theorem c3_witness :
    get_location_data (.transportFail "connection refused") "10001"
        ⟨[⟨"10001", 40, -73⟩], 1⟩ =
      (.ok ⟨40, -73⟩, ⟨[⟨"10001", 40, -73⟩], 1⟩) :=
  c3_cache_round_trip (.response 200 [⟨some 40, some (-73)⟩]) "10001" ⟨[], 0⟩
    ⟨40, -73⟩ ⟨[⟨"10001", 40, -73⟩], 1⟩ rfl (.transportFail "connection refused")

/-- C10: when the upstream answers 200 and the first `places` record lacks
the latitude (or longitude) key, `get_location_data` treats the lookup as a
success with the missing coordinate defaulting to 0, caches that 0
coordinate under the postcode, and returns it; no malformed-response error
is raised. -/
theorem c10_missing_key_defaults_zero (postcode : String) (s : GeoState)
    (rest : List Place) (hmiss : cacheLookup s.cache postcode = none) :
    (∀ lonv : ℚ,
      get_location_data (.response 200 (⟨none, some lonv⟩ :: rest)) postcode s =
        (.ok ⟨0, lonv⟩,
         { cache := ⟨postcode, 0, lonv⟩ :: s.cache, fetchCount := s.fetchCount + 1 })) ∧
    (∀ latv : ℚ,
      get_location_data (.response 200 (⟨some latv, none⟩ :: rest)) postcode s =
        (.ok ⟨latv, 0⟩,
         { cache := ⟨postcode, latv, 0⟩ :: s.cache, fetchCount := s.fetchCount + 1 })) := by
  constructor <;> intro v <;> simp [get_location_data, hmiss, fetch_from_api]

/-- C10 witness: a 200 response whose only place lacks the latitude key
resolves to latitude 0 with the given longitude, and the pair is cached. -/
theorem c10_witness :
    get_location_data (.response 200 [⟨none, some (-80)⟩]) "99999" ⟨[], 0⟩ =
      (.ok ⟨0, -80⟩, ⟨[⟨"99999", 0, -80⟩], 1⟩) :=
  (c10_missing_key_defaults_zero "99999" ⟨[], 0⟩ [] rfl).1 (-80)

/-
  Embedding of the service-variant resolver `GeoService.get_coordinates`
  (src/app/services/geo_service.py), which is wrapped, inside out, by
  `async_retry(retries=3, delay=1.0, backoff_factor=2.0,
  exceptions=[httpx.TransportError, httpx.TimeoutException])` and by
  `handle_api_errors("geo_lookup")` (src/app/utils/api_error_handler.py).
-/

/-- Events observable through `event_emitter.emit` during a resolution
(src/app/core/events.py topics). -/
inductive GeoEvent where
  | lookupSuccess (postcode : String) (latitude longitude : ℚ) (direction : String)
  | lookupError (postcode : String) (message : String)
  | apiError (operation : String) (status : Nat)
  | apiConnectionError (operation : String)
  | apiUnexpectedError (operation : String)
deriving DecidableEq, Repr

/-- Exceptions that can escape one attempt of the `get_coordinates` body:
the two httpx transport-level kinds, the `raise_for_status` status error,
and the `TypeError` raised by `float(None)` when a coordinate key is
missing. -/
inductive HttpxError where
  | transportError (msg : String)
  | timeoutException (msg : String)
  | httpStatusError (status : Nat)
  | typeError (msg : String)
deriving DecidableEq, Repr

/-- Exception filter configured on the `async_retry` decorator of
`get_coordinates`: only `httpx.TransportError` and `httpx.TimeoutException`
are retried. -/
def geo_retry_exceptions : HttpxError → Bool
  | .transportError _ => true
  | .timeoutException _ => true
  | .httpStatusError _ => false
  | .typeError _ => false

/-- Value returned by a successful `get_coordinates` call. -/
structure GeoResult where
  latitude : ℚ
  longitude : ℚ
  direction_from_new_york : String
deriving DecidableEq, Repr

/-- One attempt of the `get_coordinates` body
(src/app/services/geo_service.py): a transport failure raises the matching
httpx exception; a non-2xx status raises through `raise_for_status`; an
empty `places` list emits `geo.lookup.error` and returns `None`; otherwise
the first record's coordinates are parsed (a missing key makes
`float(place.get(...))` raise `TypeError`), the direction is computed
against the New York constants, `geo.lookup.success` is emitted and the
result returned. -/
def get_coordinates_body (postcode : String) :
    UpstreamResponse → Except HttpxError (Option GeoResult) × List GeoEvent
  | .transportFail msg => (.error (.transportError msg), [])
  | .timeoutFail msg => (.error (.timeoutException msg), [])
  | .response status places =>
    if status < 200 ∨ 300 ≤ status then (.error (.httpStatusError status), [])
    else
      match places.head? with
      | none => (.ok none, [.lookupError postcode "No location data found"])
      | some place =>
        match place.latitude with
        | none => (.error (.typeError "float() argument is None"), [])
        | some latitude =>
          match place.longitude with
          | none => (.error (.typeError "float() argument is None"), [])
          | some longitude =>
            let direction := calculate_direction latitude longitude NY_LATITUDE NY_LONGITUDE
            (.ok (some ⟨latitude, longitude, direction⟩),
             [.lookupSuccess postcode latitude longitude direction])

/-- Embedding of the `handle_api_errors` decorator
(src/app/utils/api_error_handler.py), applied outside the retry wrapper: a
normal return passes through; `httpx.HTTPStatusError` becomes an `ApiError`
carrying the status code and emits `api.geo_lookup.error`;
`httpx.RequestError` (transport and timeout) becomes a connection `ApiError`
and emits `api.geo_lookup.connection_error`; any other exception becomes an
unexpected `ApiError` and emits `api.geo_lookup.unexpected_error`. -/
inductive ApiError where
  | status (status_code : Nat)
  | connection
  | unexpected
deriving DecidableEq, Repr

/-- Outcome translation performed by `handle_api_errors` on the result of
the wrapped (retried) call. -/
def handle_api_errors (operation : String) :
    RetryResult HttpxError (Option GeoResult) GeoEvent →
    RetryResult ApiError (Option GeoResult) GeoEvent
  | ⟨.ok v, evs, n, ws⟩ => ⟨.ok v, evs, n, ws⟩
  | ⟨.error (.httpStatusError s), evs, n, ws⟩ =>
    ⟨.error (.status s), evs ++ [.apiError operation s], n, ws⟩
  | ⟨.error (.transportError _), evs, n, ws⟩ =>
    ⟨.error .connection, evs ++ [.apiConnectionError operation], n, ws⟩
  | ⟨.error (.timeoutException _), evs, n, ws⟩ =>
    ⟨.error .connection, evs ++ [.apiConnectionError operation], n, ws⟩
  | ⟨.error (.typeError _), evs, n, ws⟩ =>
    ⟨.error .unexpected, evs ++ [.apiUnexpectedError operation], n, ws⟩

/-- Full embedding of `GeoService.get_coordinates` with its decorators and
their configured arguments; `upstream` gives the HTTP exchange each attempt
sees and `rand` the jitter randomness. -/
def get_coordinates (postcode : String) (upstream : Nat → UpstreamResponse)
    (rand : Nat → ℚ) : RetryResult ApiError (Option GeoResult) GeoEvent :=
  handle_api_errors "geo_lookup"
    (async_retry 3 1 2 true geo_retry_exceptions rand
      (fun i => get_coordinates_body postcode (upstream i)))

/-- When the first attempt returns normally, the retry loop stops after one
invocation with that value, whatever the remaining budget. -/
theorem retryGo_first_ok {E A Ev : Type} (retryable : E → Bool)
    (op : Nat → Except E A × List Ev) (jitter : Bool) (rand : Nat → ℚ)
    (cd bf : ℚ) (v : A) (evs : List Ev) (hop : op 0 = (.ok v, evs)) :
    ∀ remaining, retryGo retryable op jitter rand 0 cd bf remaining = ⟨.ok v, evs, 1, []⟩
  | 0 => by simp [retryGo, hop]
  | n + 1 => by simp [retryGo, hop]

/-- When the first attempt raises a non-retryable error, the retry loop
stops after one invocation and propagates it, whatever the remaining
budget. -/
theorem retryGo_first_terminal {E A Ev : Type} (retryable : E → Bool)
    (op : Nat → Except E A × List Ev) (jitter : Bool) (rand : Nat → ℚ)
    (cd bf : ℚ) (e : E) (evs : List Ev) (hop : op 0 = (.error e, evs))
    (hterm : retryable e = false) :
    ∀ remaining, retryGo retryable op jitter rand 0 cd bf remaining = ⟨.error e, evs, 1, []⟩
  | 0 => by simp [retryGo, hop]
  | n + 1 => by simp [retryGo, hop, hterm]

/-- C4 counterexample: for postcode "00000" with a 200 response carrying
`places=[]` on every attempt, `get_coordinates` does not fail: it returns
`None` (`Except.ok none`), after one attempt, while `geo.lookup.error` is
emitted exactly once. -/
theorem c4_counterexample :
    (get_coordinates "00000" (fun _ => .response 200 []) (fun _ => 0)).result
      = Except.ok none ∧
    (get_coordinates "00000" (fun _ => .response 200 []) (fun _ => 0)).events
      = [.lookupError "00000" "No location data found"] ∧
    (get_coordinates "00000" (fun _ => .response 200 []) (fun _ => 0)).invocations = 1 :=
  ⟨rfl, rfl, rfl⟩

/-- C4 (amended): for every postcode whose first upstream exchange is a
success-status response with an empty (or absent) `places` list,
`get_coordinates` returns `None` to the caller instead of raising - the
attempt counts as a normal return, so no retry happens - and the
`geo.lookup.error` event is published exactly once for the call. -/
theorem c4_empty_places_returns_none (postcode : String)
    (upstream : Nat → UpstreamResponse) (rand : Nat → ℚ) (status : Nat)
    (h200 : 200 ≤ status) (h300 : status < 300)
    (h0 : upstream 0 = .response status []) :
    get_coordinates postcode upstream rand =
      ⟨.ok none, [.lookupError postcode "No location data found"], 1, []⟩ := by
  have hcond : ¬ (status < 200 ∨ 300 ≤ status) := by omega
  have hbody : get_coordinates_body postcode (upstream 0) =
      (.ok none, [GeoEvent.lookupError postcode "No location data found"]) := by
    rw [h0]
    simp only [get_coordinates_body]
    rw [if_neg hcond]
    rfl
  have h1 := retryGo_first_ok geo_retry_exceptions
    (fun i => get_coordinates_body postcode (upstream i)) true rand 1 2 none
    [GeoEvent.lookupError postcode "No location data found"] hbody 3
  unfold get_coordinates async_retry
  rw [h1]
  rfl

/-- C4 witness: a 204 success status with empty places yields `ok none`, one
invocation, and a single `geo.lookup.error` event. -/
theorem c4_witness :
    get_coordinates "00000" (fun _ => .response 204 []) (fun _ => 0) =
      ⟨.ok none, [.lookupError "00000" "No location data found"], 1, []⟩ :=
  c4_empty_places_returns_none "00000" (fun _ => .response 204 []) (fun _ => 0) 204
    (by norm_num) (by norm_num) rfl

/-- C6 counterexample: a 503 response - a retryable status per the claim -
is not retried by `get_coordinates`: the operation runs exactly once, waits
for no backoff, and the status error propagates immediately. -/
theorem c6_counterexample :
    (get_coordinates "10001" (fun _ => .response 503 []) (fun _ => 0)).invocations = 1 ∧
    (get_coordinates "10001" (fun _ => .response 503 []) (fun _ => 0)).result
      = Except.error (.status 503) ∧
    (get_coordinates "10001" (fun _ => .response 503 []) (fun _ => 0)).waits = [] :=
  ⟨rfl, rfl, rfl⟩

/-- C6 (amended): every fetch attempt whose upstream response carries a
non-success HTTP status is classified as an `ApiError` carrying that status
code, but no status error is retried: `httpx.HTTPStatusError` is not in the
retryable exception list (`[TransportError, TimeoutException]`), so every
non-2xx status - 5xx and 429 included - is terminal and propagates after a
single attempt with no backoff wait. -/
theorem c6_status_error_terminal (postcode : String)
    (upstream : Nat → UpstreamResponse) (rand : Nat → ℚ) (status : Nat)
    (places : List Place) (hbad : status < 200 ∨ 300 ≤ status)
    (h0 : upstream 0 = .response status places) :
    get_coordinates postcode upstream rand =
      ⟨.error (.status status), [.apiError "geo_lookup" status], 1, []⟩ := by
  have hbody : get_coordinates_body postcode (upstream 0) =
      (.error (.httpStatusError status), []) := by
    rw [h0]
    simp only [get_coordinates_body]
    rw [if_pos hbad]
  have h1 := retryGo_first_terminal geo_retry_exceptions
    (fun i => get_coordinates_body postcode (upstream i)) true rand 1 2
    (.httpStatusError status) [] hbody rfl 3
  unfold get_coordinates async_retry
  rw [h1]
  rfl

/-- C6 witness: a 404 response propagates as a status-carrying `ApiError`
after exactly one attempt. -/
theorem c6_witness :
    get_coordinates "10001" (fun _ => .response 404 []) (fun _ => 0) =
      ⟨.error (.status 404), [.apiError "geo_lookup" 404], 1, []⟩ :=
  c6_status_error_terminal "10001" (fun _ => .response 404 []) (fun _ => 0) 404 []
    (Or.inr (by norm_num)) rfl

/-
  EventBus.  src/app/core/events.py instantiates `pyee.EventEmitter` and
  registers handlers on it; the `emit` implementation itself is third-party
  library code that is not part of this repository's sources.
-/

/-- Modelled from the spec: the sequential fan-out of `EventBus.Publish` over
the subscribed handlers, whose implementation (pyee's `EventEmitter.emit`,
used by src/app/core/events.py) is not under src/.  Per the spec, each
handler is invoked in turn and a handler exception is caught and logged by
the bus rather than propagated.  A handler is a function from the payload to
`Except String Unit`, `Except.error` standing for a raised exception; the
log of caught exceptions is accumulated in order. -/
def bus_logs {P : Type} (handlers : List (P → Except String Unit)) (payload : P) :
    List String :=
  match handlers with
  | [] => []
  | h :: rest =>
    match h payload with
    | .ok _ => bus_logs rest payload
    | .error msg => msg :: bus_logs rest payload

/-- Modelled from the spec: `EventBus.Publish` returns normally to the
publisher (always `Except.ok`), carrying the log of caught handler
exceptions; it never re-raises one. -/
def event_bus_publish {P : Type} (handlers : List (P → Except String Unit)) (payload : P) :
    Except String (List String) :=
  .ok (bus_logs handlers payload)

/-- C5: publishing with a raising handler in the middle of the subscriber
list still returns normally to the publisher; the raising handler's
exception is merely logged, and the handlers after it still run and
contribute exactly their own log entries. -/
theorem c5_handler_errors_isolated {P : Type} (pre post : List (P → Except String Unit))
    (h : P → Except String Unit) (payload : P) (msg : String)
    (hraise : h payload = Except.error msg) :
    event_bus_publish (pre ++ h :: post) payload =
      Except.ok (bus_logs pre payload ++ msg :: bus_logs post payload) := by
  unfold event_bus_publish
  congr 1
  induction pre with
  | nil => simp [bus_logs, hraise]
  | cons hd tl ih =>
    cases hhd : hd payload with
    | ok u => simp [bus_logs, hhd, ih]
    | error m => simp [bus_logs, hhd, ih]

/-- Handler that returns normally, for the C5 witness. -/
def c5h_ok : Nat → Except String Unit := fun _ => .ok ()

/-- Handler that raises, for the C5 witness. -/
def c5h_boom : Nat → Except String Unit := fun _ => .error "boom"

/-- Later handler that also raises, for the C5 witness. -/
def c5h_late : Nat → Except String Unit := fun _ => .error "late"

/-- C5 witness: with a raising handler between two others, publish still
returns `ok` and the later handler still ran. -/
theorem c5_witness :
    event_bus_publish [c5h_ok, c5h_boom, c5h_late] 0 = Except.ok ["boom", "late"] :=
  c5_handler_errors_isolated [c5h_ok] [c5h_late] c5h_boom 0 "boom" rfl

/-
  Embedding of the retry worker (src/app/workers/geo_worker.py).  One queue
  item is a dict; absent keys are `none`.  Timestamps are in seconds, so the
  rescheduling deltas of the source are 1800 (30 min after a lookup that
  returned no data), 3600 (1 h after an `ApiError`), and 900 (15 min after
  an unexpected exception).  The awaited call to
  `GeoService.get_coordinates` (plus the repository update) is summarised by
  a `LookupOutcome` chosen by the environment.
-/

/-- One retry-queue item (the dict handled by `GeoWorker._process_lookup`). -/
structure QueueItem where
  postcode : Option String
  item_id : Option String
  retry_count : Option Nat
  last_error : Option String
  next_retry : Option Nat
deriving DecidableEq, Repr

/-- Result of the awaited work inside `_process_lookup`'s try block: a value
returned by `get_coordinates` (possibly `None`), an `ApiError` raised by it,
or any other exception. -/
inductive LookupOutcome where
  | value (geo : Option GeoResult)
  | apiFailure (msg : String)
  | unexpectedFailure (msg : String)
deriving DecidableEq, Repr

/-- Observable effect of one `_process_lookup` call: the final state of the
queue item dict, whether `get_coordinates` was invoked, and whether
`ItemRepository.update_geo_data` was called. -/
structure LookupStepResult where
  item : QueueItem
  resolve_invoked : Bool
  repo_updated : Bool
deriving DecidableEq, Repr

/-- Embedding of `GeoWorker._process_lookup`
(src/app/workers/geo_worker.py): an item whose `retry_count` (defaulting to
0) has reached 5 is dropped - the function returns before calling
`get_coordinates` and mutates nothing; otherwise the lookup runs and, on a
`None` result, `retry_count` is incremented and `next_retry` set 30 minutes
out (note the source records no `last_error` on this path); on success the
item's owner is updated when `item_id` is present; on a raised `ApiError` or
unexpected exception - both caught inside this function - `retry_count` is
incremented and `last_error` and `next_retry` recorded. -/
def process_lookup (outcome : LookupOutcome) (now : Nat) (queue_item : QueueItem) :
    LookupStepResult :=
  let retry_count := queue_item.retry_count.getD 0
  if 5 ≤ retry_count then ⟨queue_item, false, false⟩
  else
    match outcome with
    | .value none =>
      ⟨{ queue_item with
          retry_count := some (retry_count + 1),
          next_retry := some (now + 1800) }, true, false⟩
    | .value (some _) =>
      match queue_item.item_id with
      | some _ => ⟨queue_item, true, true⟩
      | none => ⟨queue_item, true, false⟩
    | .apiFailure msg =>
      ⟨{ queue_item with
          retry_count := some (retry_count + 1),
          last_error := some msg,
          next_retry := some (now + 3600) }, true, false⟩
    | .unexpectedFailure msg =>
      ⟨{ queue_item with
          retry_count := some (retry_count + 1),
          last_error := some msg,
          next_retry := some (now + 900) }, true, false⟩

/-- Embedding of the loop of `GeoWorker.process_pending_lookups`: each item
of the batch is processed in order by `_process_lookup`; `outcomes k` is the
lookup outcome seen while processing the k-th item. -/
def process_pending_lookups (outcomes : Nat → LookupOutcome) (now : Nat) :
    Nat → List QueueItem → List LookupStepResult
  | _, [] => []
  | k, item :: rest =>
    process_lookup (outcomes k) now item ::
      process_pending_lookups outcomes now (k + 1) rest

/-- C7: an item whose `retry_count` has reached the ceiling of 5 is dropped
by `_process_lookup` without invoking the resolver, without updating any
owner, and without scheduling any further re-attempt (the item dict is left
untouched: no new `next_retry`, no increment). -/
theorem c7_ceiling_drops_item (outcome : LookupOutcome) (now : Nat)
    (queue_item : QueueItem) (h : 5 ≤ queue_item.retry_count.getD 0) :
    process_lookup outcome now queue_item = ⟨queue_item, false, false⟩ := by
  simp [process_lookup, h]

/-- C7 witness: an item at the ceiling with an available lookup outcome is
returned untouched with no resolver call. -/
theorem c7_witness :
    process_lookup (.apiFailure "HTTP 500") 0
        ⟨some "00000", some "item-1", some 5, none, none⟩ =
      ⟨⟨some "00000", some "item-1", some 5, none, none⟩, false, false⟩ :=
  c7_ceiling_drops_item (.apiFailure "HTTP 500") 0
    ⟨some "00000", some "item-1", some 5, none, none⟩ (by decide)

/-- C9 counterexample: a first re-attempt whose lookup returns `None` (still
no geo data) is a failed re-attempt - `retry_count` is incremented to 1 and
a new `next_retry` is scheduled - yet `last_error` is not recorded: it stays
`none`, contradicting the claim that every failed re-attempt records
`last_error`. -/
theorem c9_counterexample :
    (process_lookup (.value none) 0
        ⟨some "00000", none, none, none, none⟩).item.retry_count = some 1 ∧
    (process_lookup (.value none) 0
        ⟨some "00000", none, none, none, none⟩).item.next_retry = some 1800 ∧
    (process_lookup (.value none) 0
        ⟨some "00000", none, none, none, none⟩).item.last_error = none :=
  ⟨rfl, rfl, rfl⟩

/-- C9 (amended): `retry_count` is monotonically non-decreasing across a
processing step; below the ceiling, every failed re-attempt increments it by
exactly 1 and records a new `next_retry_at` (30 min out when the lookup
returned no data, 1 h after an `ApiError`, 15 min after an unexpected
exception), with `last_error` recorded on the two exception paths but left
untouched on the no-data path; and a failure while processing one item of a
batch is contained in that item's step, so every other item of the batch is
still processed with its own outcome. -/
theorem c9_retry_count_monotone_batch_isolated :
    (∀ outcome now queue_item,
      queue_item.retry_count.getD 0 ≤
        (process_lookup outcome now queue_item).item.retry_count.getD 0) ∧
    (∀ outcome now queue_item, queue_item.retry_count.getD 0 < 5 →
      (outcome = .value none →
        (process_lookup outcome now queue_item).item.retry_count
            = some (queue_item.retry_count.getD 0 + 1) ∧
        (process_lookup outcome now queue_item).item.next_retry = some (now + 1800) ∧
        (process_lookup outcome now queue_item).item.last_error
            = queue_item.last_error) ∧
      (∀ msg, outcome = .apiFailure msg →
        (process_lookup outcome now queue_item).item.retry_count
            = some (queue_item.retry_count.getD 0 + 1) ∧
        (process_lookup outcome now queue_item).item.next_retry = some (now + 3600) ∧
        (process_lookup outcome now queue_item).item.last_error = some msg) ∧
      (∀ msg, outcome = .unexpectedFailure msg →
        (process_lookup outcome now queue_item).item.retry_count
            = some (queue_item.retry_count.getD 0 + 1) ∧
        (process_lookup outcome now queue_item).item.next_retry = some (now + 900) ∧
        (process_lookup outcome now queue_item).item.last_error = some msg)) ∧
    (∀ outcomes now k pre item post,
      process_pending_lookups outcomes now k (pre ++ item :: post) =
        process_pending_lookups outcomes now k pre ++
          process_lookup (outcomes (k + pre.length)) now item ::
            process_pending_lookups outcomes now (k + pre.length + 1) post) := by
  refine ⟨?_, ?_, ?_⟩
  · intro outcome now queue_item
    by_cases h5 : 5 ≤ queue_item.retry_count.getD 0
    · simp [process_lookup, h5]
    · cases outcome with
      | value g =>
        cases g with
        | none => simp [process_lookup, h5]
        | some r => cases hid : queue_item.item_id <;> simp [process_lookup, h5, hid]
      | apiFailure msg => simp [process_lookup, h5]
      | unexpectedFailure msg => simp [process_lookup, h5]
  · intro outcome now queue_item h5
    have hn5 : ¬ 5 ≤ queue_item.retry_count.getD 0 := by omega
    refine ⟨?_, ?_, ?_⟩
    · intro heq; subst heq; simp [process_lookup, hn5]
    · intro msg heq; subst heq; simp [process_lookup, hn5]
    · intro msg heq; subst heq; simp [process_lookup, hn5]
  · intro outcomes now k pre item post
    induction pre generalizing k with
    | nil => simp [process_pending_lookups]
    | cons hd tl ih =>
      have h1 : k + (tl.length + 1) = k + 1 + tl.length := by omega
      have h2 : k + (tl.length + 1) + 1 = k + 1 + tl.length + 1 := by omega
      simp only [List.cons_append, process_pending_lookups, List.length_cons,
        List.append_eq, h1, h2, ih (k + 1)]

/-- C9 witness: a re-attempt below the ceiling that raises an `ApiError`
increments `retry_count` from 2 to 3, records the error text and schedules
the next attempt one hour out. -/
theorem c9_witness :
    (process_lookup (.apiFailure "API error 500") 50
        ⟨some "00000", none, some 2, none, none⟩).item.retry_count = some 3 ∧
    (process_lookup (.apiFailure "API error 500") 50
        ⟨some "00000", none, some 2, none, none⟩).item.next_retry = some 3650 ∧
    (process_lookup (.apiFailure "API error 500") 50
        ⟨some "00000", none, some 2, none, none⟩).item.last_error
        = some "API error 500" :=
  (c9_retry_count_monotone_batch_isolated.2.1 (.apiFailure "API error 500") 50
      ⟨some "00000", none, some 2, none, none⟩ (by decide)).2.1 "API error 500" rfl
